import Mathlib

/-!
Verification model of the QuickBiza POS Hybrid Cloud Sync Service
(connectivity probing, record upserter, outbox queue and the scheduled
full-sweep orchestrator), together with the unique compound indexes of
the remote collections declared in `database/cloud.js`.

The embedding is shallow: every JS function of the sync core is
translated into an executable Lean definition over explicit state.
The remote document store is a list of documents per collection; the
local SQLite tables are lists of row records; `syncState` is a record
mirroring the in-memory singleton; asynchronous failure points
(DNS probe, mongoose readyState, thrown remote writes, `getCompanyId`)
are supplied by an environment record so that every control path of the
source is reachable in the model.
-/

namespace QuickBiza

/-! ### Remote store: documents and the idempotent upsert

Mirrors `upsertMany` / `upsertOne`: each bulk op is
`updateOne { filter: { local_id, company_id }, update: { $set: ... }, upsert: true }`.
Every sync collection carries the unique compound index
`{ local_id: 1, company_id: 1 }` declared in `database/cloud.js`.
-/

/-- A document of one of the `sync_*` cloud collections: the compound key
`(local_id, company_id)`, the mapped payload `fields`, and `synced_at`. -/
structure RemoteDoc (F : Type) where
  local_id : Nat
  company_id : String
  fields : F
  synced_at : Nat
  deriving Repr, DecidableEq

/-- The compound-key predicate used as the `updateOne` filter. -/
def docKey {F : Type} (lid : Nat) (cid : String) (d : RemoteDoc F) : Bool :=
  decide (d.local_id = lid ∧ d.company_id = cid)

/-- One `updateOne ... upsert: true` op: overwrite the fields of the first
document matching `(lid, cid)`, or insert a fresh document if none matches. -/
def updateOneUpsert {F : Type} (coll : List (RemoteDoc F)) (lid : Nat) (cid : String)
    (f : F) (now : Nat) : List (RemoteDoc F) :=
  match coll with
  | [] => [⟨lid, cid, f, now⟩]
  | d :: ds =>
      if d.local_id = lid ∧ d.company_id = cid then ⟨lid, cid, f, now⟩ :: ds
      else d :: updateOneUpsert ds lid cid f now

/-- `upsertMany(Model, docs, company_id)`: a bulk write of one upsert op per
doc (the source runs it `ordered: false`; with the unique compound index the
ops commute, and the model applies them in list order), returning the number
of documents created or modified. -/
def upsertMany {F : Type} (coll : List (RemoteDoc F)) (docs : List (Nat × F))
    (cid : String) (now : Nat) : List (RemoteDoc F) × Nat :=
  (docs.foldl (fun c d => updateOneUpsert c d.1 cid d.2 now) coll, docs.length)

/-- `upsertOne(Model, doc, company_id)` = `upsertMany(Model, [doc], company_id)`. -/
def upsertOne {F : Type} (coll : List (RemoteDoc F)) (lid : Nat) (f : F)
    (cid : String) (now : Nat) : List (RemoteDoc F) × Nat :=
  upsertMany coll [(lid, f)] cid now

/-- Number of remote documents addressed by the compound key `(lid, cid)`. -/
def keyCount {F : Type} (coll : List (RemoteDoc F)) (lid : Nat) (cid : String) : Nat :=
  (coll.filter (docKey lid cid)).length

/-- The documents NOT addressed by `(lid, cid)` (everything an upsert of that
key must leave untouched). -/
def others {F : Type} (coll : List (RemoteDoc F)) (lid : Nat) (cid : String) :
    List (RemoteDoc F) :=
  coll.filter (fun d => !docKey lid cid d)



/-! ### Local ledger rows

Rows of the local SQLite tables read by the sync service.  The six
queue-eligible tables additionally carry the per-row sync metadata columns
(`sync_status`, `updated_at`) added by the db migration.  Numeric amounts are
modelled as `Int`, ids as `Nat`, nullable columns as `Option`, and date/time
text as an `Option Nat` timestamp (the `r.x ? new Date(r.x) : null`
conversions are identity on this representation). -/

structure ProductRow where
  id : Nat
  name : String
  category_id : Option Nat
  price : Int
  barcode : Option String
  emoji : Option String
  description : Option String
  active : Nat
  created_at : Option Nat
  sync_status : String
  updated_at : Option Nat
  deriving Repr, DecidableEq

structure SaleRow where
  id : Nat
  customer_id : Option Nat
  subtotal : Int
  discount_percent : Int
  discount_amount : Int
  total : Int
  status : String
  cashier_id : Option Nat
  created_at : Option Nat
  sync_status : String
  updated_at : Option Nat
  deriving Repr, DecidableEq

structure SaleItemRow where
  sale_id : Nat
  product_id : Option Nat
  product_name : String
  quantity : Int
  unit_price : Int
  subtotal : Int
  deriving Repr, DecidableEq

structure PaymentRow where
  sale_id : Nat
  method : String
  amount : Int
  mpesa_receipt : Option String
  status : String
  deriving Repr, DecidableEq

structure CustomerRow where
  id : Nat
  name : String
  phone : Option String
  email : Option String
  birthday : Option Nat
  loyalty_points : Int
  store_credit : Int
  created_at : Option Nat
  sync_status : String
  updated_at : Option Nat
  deriving Repr, DecidableEq

structure OrderRow where
  id : Nat
  customer_id : Option Nat
  item_description : String
  total_price : Int
  deposit_paid : Int
  balance : Int
  pickup_date : Option Nat
  status : String
  notes : Option String
  created_by : Option Nat
  created_at : Option Nat
  sync_status : String
  updated_at : Option Nat
  deriving Repr, DecidableEq

structure ExpenseRow where
  id : Nat
  category : String
  description : Option String
  amount : Int
  expense_date : Option Nat
  created_by : Option Nat
  created_at : Option Nat
  sync_status : String
  updated_at : Option Nat
  deriving Repr, DecidableEq

structure PurchaseRow where
  id : Nat
  supplier_id : Option Nat
  total_amount : Int
  payment_status : String
  amount_paid : Int
  created_by : Option Nat
  created_at : Option Nat
  sync_status : String
  updated_at : Option Nat
  deriving Repr, DecidableEq

structure PurchaseItemRow where
  purchase_id : Nat
  ingredient_id : Option Nat
  quantity : Int
  unit_cost : Int
  subtotal : Int
  deriving Repr, DecidableEq

structure SupplierRow where
  id : Nat
  name : String
  deriving Repr, DecidableEq

/-- The local SQLite tables the real-time sync path reads. -/
structure LocalDB where
  products : List ProductRow
  sales : List SaleRow
  sale_items : List SaleItemRow
  payments : List PaymentRow
  customers : List CustomerRow
  orders : List OrderRow
  expenses : List ExpenseRow
  purchases : List PurchaseRow
  purchase_items : List PurchaseItemRow
  suppliers : List SupplierRow
  deriving Repr, DecidableEq

/-! ### Remote document payloads and the per-entity field mappings -/

structure SaleItemDoc where
  product_id : Option Nat
  product_name : String
  quantity : Int
  unit_price : Int
  subtotal : Int
  deriving Repr, DecidableEq

structure PaymentDoc where
  method : String
  amount : Int
  mpesa_receipt : Option String
  status : String
  deriving Repr, DecidableEq

structure SaleDoc where
  customer_id : Option Nat
  subtotal : Int
  discount_percent : Int
  discount_amount : Int
  total : Int
  status : String
  cashier_id : Option Nat
  created_at : Option Nat
  items : List SaleItemDoc
  payments : List PaymentDoc
  deriving Repr, DecidableEq

structure ProductDoc where
  name : String
  category_id : Option Nat
  price : Int
  barcode : Option String
  emoji : Option String
  description : Option String
  active : Nat
  created_at : Option Nat
  deriving Repr, DecidableEq

structure CustomerDoc where
  name : String
  phone : Option String
  email : Option String
  birthday : Option Nat
  loyalty_points : Int
  store_credit : Int
  created_at : Option Nat
  deriving Repr, DecidableEq

structure OrderDoc where
  customer_id : Option Nat
  item_description : String
  total_price : Int
  deposit_paid : Int
  balance : Int
  pickup_date : Option Nat
  status : String
  notes : Option String
  created_by : Option Nat
  created_at : Option Nat
  deriving Repr, DecidableEq

structure ExpenseDoc where
  category : String
  description : Option String
  amount : Int
  expense_date : Option Nat
  created_by : Option Nat
  created_at : Option Nat
  deriving Repr, DecidableEq

structure PurchaseItemDoc where
  ingredient_id : Option Nat
  quantity : Int
  unit_cost : Int
  subtotal : Int
  deriving Repr, DecidableEq

structure PurchaseDoc where
  supplier_id : Option Nat
  supplier_name : Option String
  total_amount : Int
  payment_status : String
  amount_paid : Int
  created_by : Option Nat
  created_at : Option Nat
  items : List PurchaseItemDoc
  deriving Repr, DecidableEq

/-- `buildSaleDoc(s, saleItems, payments)`. -/
def buildSaleDoc (s : SaleRow) (saleItems : List SaleItemRow)
    (payments : List PaymentRow) : SaleDoc :=
  { customer_id := s.customer_id
    subtotal := s.subtotal
    discount_percent := s.discount_percent
    discount_amount := s.discount_amount
    total := s.total
    status := s.status
    cashier_id := s.cashier_id
    created_at := s.created_at
    items := saleItems.map fun i =>
      { product_id := i.product_id, product_name := i.product_name
        quantity := i.quantity, unit_price := i.unit_price, subtotal := i.subtotal }
    payments := payments.map fun p =>
      { method := p.method, amount := p.amount
        mpesa_receipt := p.mpesa_receipt, status := p.status } }

/-- The field map of `syncProducts` / the `products` case of `syncRecord`. -/
def productDoc (r : ProductRow) : ProductDoc :=
  { name := r.name, category_id := r.category_id, price := r.price
    barcode := r.barcode, emoji := r.emoji, description := r.description
    active := r.active, created_at := r.created_at }

/-- The field map of `syncCustomers` / the `customers` case of `syncRecord`. -/
def customerDoc (r : CustomerRow) : CustomerDoc :=
  { name := r.name, phone := r.phone, email := r.email, birthday := r.birthday
    loyalty_points := r.loyalty_points, store_credit := r.store_credit
    created_at := r.created_at }

/-- The field map of `syncOrders` / the `orders` case of `syncRecord`. -/
def orderDoc (r : OrderRow) : OrderDoc :=
  { customer_id := r.customer_id, item_description := r.item_description
    total_price := r.total_price, deposit_paid := r.deposit_paid
    balance := r.balance, pickup_date := r.pickup_date, status := r.status
    notes := r.notes, created_by := r.created_by, created_at := r.created_at }

/-- The field map of `syncExpenses` / the `expenses` case of `syncRecord`. -/
def expenseDoc (r : ExpenseRow) : ExpenseDoc :=
  { category := r.category, description := r.description, amount := r.amount
    expense_date := r.expense_date, created_by := r.created_by
    created_at := r.created_at }

/-- The purchase mapping of `syncPurchases`: `LEFT JOIN suppliers` for the
supplier name, line items attached by `purchase_id`. -/
def purchaseDoc (db : LocalDB) (r : PurchaseRow) : PurchaseDoc :=
  { supplier_id := r.supplier_id
    supplier_name :=
      (db.suppliers.find? fun s => some s.id = r.supplier_id).map (·.name)
    total_amount := r.total_amount
    payment_status := r.payment_status
    amount_paid := r.amount_paid
    created_by := r.created_by
    created_at := r.created_at
    items := (db.purchase_items.filter fun i => i.purchase_id = r.id).map fun i =>
      { ingredient_id := i.ingredient_id, quantity := i.quantity
        unit_cost := i.unit_cost, subtotal := i.subtotal } }

/-- The document batch pushed by `syncPurchases`: every purchase row. -/
def purchaseDocs (db : LocalDB) : List (Nat × PurchaseDoc) :=
  db.purchases.map fun r => (r.id, purchaseDoc db r)

/-- The remote sync collections touched by the real-time path
(`sync_sales` ... `sync_purchases` in `database/cloud.js`). -/
structure Remote where
  sales : List (RemoteDoc SaleDoc)
  products : List (RemoteDoc ProductDoc)
  customers : List (RemoteDoc CustomerDoc)
  orders : List (RemoteDoc OrderDoc)
  expenses : List (RemoteDoc ExpenseDoc)
  purchases : List (RemoteDoc PurchaseDoc)
  deriving Repr, DecidableEq

def Remote.empty : Remote :=
  { sales := [], products := [], customers := [], orders := []
    expenses := [], purchases := [] }

/-! ### Sync queue and process-wide sync state -/

/-- A row of the `sync_queue` outbox table. -/
structure QueueEntry where
  id : Nat
  table_name : String
  record_id : Nat
  operation : String
  retry_count : Nat
  created_at : Nat
  last_attempt : Option Nat
  deriving Repr, DecidableEq

/-- `TRACKABLE_TABLES`: tables that carry per-row sync metadata. -/
def TRACKABLE_TABLES : List String :=
  ["sales", "products", "customers", "orders", "expenses", "purchases"]

/-- The in-memory `syncState` singleton. -/
structure SyncState where
  status : String
  lastSyncAt : Option Nat
  lastSyncError : Option String
  recordsSynced : Nat
  company_id : Option String
  deriving Repr, DecidableEq

/-- The whole mutable world outside `syncState`: local tables, remote
collections, the outbox and its autoincrement counter. -/
structure Sys where
  db : LocalDB
  remote : Remote
  queue : List QueueEntry
  nextQueueId : Nat
  deriving Repr, DecidableEq

/-- `UPDATE ${table} SET sync_status = 'pending', updated_at = datetime('now')
WHERE id = ?`, guarded by the `TRACKABLE_TABLES` membership test of
`enqueueSync` (a non-trackable table name leaves the ledger untouched). -/
def markPendingDb (table : String) (recordId : Nat) (now : Nat) (db : LocalDB) : LocalDB :=
  if table = "sales" then
    { db with sales := db.sales.map fun r =>
        if r.id = recordId then { r with sync_status := "pending", updated_at := some now } else r }
  else if table = "products" then
    { db with products := db.products.map fun r =>
        if r.id = recordId then { r with sync_status := "pending", updated_at := some now } else r }
  else if table = "customers" then
    { db with customers := db.customers.map fun r =>
        if r.id = recordId then { r with sync_status := "pending", updated_at := some now } else r }
  else if table = "orders" then
    { db with orders := db.orders.map fun r =>
        if r.id = recordId then { r with sync_status := "pending", updated_at := some now } else r }
  else if table = "expenses" then
    { db with expenses := db.expenses.map fun r =>
        if r.id = recordId then { r with sync_status := "pending", updated_at := some now } else r }
  else if table = "purchases" then
    { db with purchases := db.purchases.map fun r =>
        if r.id = recordId then { r with sync_status := "pending", updated_at := some now } else r }
  else db

/-- `UPDATE ${table} SET sync_status = 'synced' WHERE id = ?`, guarded by the
`TRACKABLE_TABLES` membership test of `markSynced`. -/
def markSyncedDb (table : String) (recordId : Nat) (db : LocalDB) : LocalDB :=
  if table = "sales" then
    { db with sales := db.sales.map fun r =>
        if r.id = recordId then { r with sync_status := "synced" } else r }
  else if table = "products" then
    { db with products := db.products.map fun r =>
        if r.id = recordId then { r with sync_status := "synced" } else r }
  else if table = "customers" then
    { db with customers := db.customers.map fun r =>
        if r.id = recordId then { r with sync_status := "synced" } else r }
  else if table = "orders" then
    { db with orders := db.orders.map fun r =>
        if r.id = recordId then { r with sync_status := "synced" } else r }
  else if table = "expenses" then
    { db with expenses := db.expenses.map fun r =>
        if r.id = recordId then { r with sync_status := "synced" } else r }
  else if table = "purchases" then
    { db with purchases := db.purchases.map fun r =>
        if r.id = recordId then { r with sync_status := "synced" } else r }
  else db

/-- The `(table_name, record_id)` compound key of an outbox entry. -/
def entryKey (table : String) (recordId : Nat) (e : QueueEntry) : Bool :=
  decide (e.table_name = table ∧ e.record_id = recordId)

/-- `enqueueSync(table, recordId)`: delete any existing entry for the key,
insert a fresh `'upsert'` entry timestamped now, and best-effort flip the
source row to `pending`. -/
def enqueueSync (table : String) (recordId : Nat) (now : Nat) (sys : Sys) : Sys :=
  { sys with
    queue :=
      (sys.queue.filter fun e => !entryKey table recordId e) ++
        [⟨sys.nextQueueId, table, recordId, "upsert", 0, now, none⟩]
    nextQueueId := sys.nextQueueId + 1
    db :=
      if table ∈ TRACKABLE_TABLES then markPendingDb table recordId now sys.db
      else sys.db }

/-- `markSynced(table, recordId)`: delete the outbox entry for the key and flip
the source row to `synced` when the table is trackable. -/
def markSynced (table : String) (recordId : Nat) (sys : Sys) : Sys :=
  { sys with
    queue := sys.queue.filter fun e => !entryKey table recordId e
    db :=
      if table ∈ TRACKABLE_TABLES then markSyncedDb table recordId sys.db
      else sys.db }

/-! ### The real-time single-record path (`syncRecord`) -/

/-- The asynchronous environment of one real-time push: the two connectivity
probes (`isNetworkAvailable`, `mongoose.connection.readyState === 1`), the
outcome of `getCompanyId()` (which can throw, outside `syncRecord`'s try
block), and any error thrown by the remote write inside the try block,
per `(table, id)`. -/
structure RtEnv where
  network : Bool
  mongoConnected : Bool
  companyIdResolve : Except String String
  pushError : String → Nat → Option String

/-- The body of `syncRecord`'s try block: the `switch (table)` dispatch.
A thrown remote write (`pushError`) is caught by the surrounding
`catch` and swallowed, leaving the remote store as it was. -/
def syncRecordBody (env : RtEnv) (table : String) (id : Nat) (db : LocalDB)
    (remote : Remote) (cid : String) (now : Nat) : Remote :=
  match env.pushError table id with
  | some _ => remote
  | none =>
    if table = "products" then
      match db.products.find? fun r => r.id = id with
      | some r =>
          { remote with products := (upsertOne remote.products r.id (productDoc r) cid now).1 }
      | none => remote
    else if table = "sales" then
      match db.sales.find? fun s => s.id = id with
      | some s =>
          let items := db.sale_items.filter fun i => i.sale_id = id
          let pmts := db.payments.filter fun p => p.sale_id = id
          { remote with sales := (upsertOne remote.sales s.id (buildSaleDoc s items pmts) cid now).1 }
      | none => remote
    else if table = "customers" then
      match db.customers.find? fun r => r.id = id with
      | some r =>
          { remote with customers := (upsertOne remote.customers r.id (customerDoc r) cid now).1 }
      | none => remote
    else if table = "orders" then
      match db.orders.find? fun r => r.id = id with
      | some r =>
          { remote with orders := (upsertOne remote.orders r.id (orderDoc r) cid now).1 }
      | none => remote
    else if table = "expenses" then
      match db.expenses.find? fun r => r.id = id with
      | some r =>
          { remote with expenses := (upsertOne remote.expenses r.id (expenseDoc r) cid now).1 }
      | none => remote
    else if table = "purchases" then
      { remote with purchases := (upsertMany remote.purchases (purchaseDocs db) cid now).1 }
    else remote

/-- `syncRecord(table, id)`: return early unless both connectivity layers are
up; memoize `syncState.company_id` (`getCompanyId()` may throw, and that throw
propagates — it happens before the try block); then run the dispatch with all
of its own errors swallowed. -/
def syncRecordRun (env : RtEnv) (now : Nat) (table : String) (id : Nat)
    (db : LocalDB) (remote : Remote) (st : SyncState) :
    Except String (Remote × SyncState) :=
  if env.network = false ∨ env.mongoConnected = false then .ok (remote, st)
  else
    match st.company_id with
    | some cid => .ok (syncRecordBody env table id db remote cid now, st)
    | none =>
        match env.companyIdResolve with
        | .error e => .error e
        | .ok cid =>
            .ok (syncRecordBody env table id db remote cid now,
                 { st with company_id := some cid })

/-! ### The outbox drain (`processQueue`) -/

/-- Insert an entry into a list sorted by `created_at` (ties keep the earlier
element first, giving a stable oldest-created-first order). -/
def insertByCreated (e : QueueEntry) : List QueueEntry → List QueueEntry
  | [] => [e]
  | x :: xs =>
      if e.created_at < x.created_at then e :: x :: xs
      else x :: insertByCreated e xs

/-- Stable sort of the outbox by `created_at` (the `ORDER BY created_at`). -/
def sortByCreated : List QueueEntry → List QueueEntry
  | [] => []
  | x :: xs => insertByCreated x (sortByCreated xs)

/-- The candidate set of one drain pass:
`SELECT * FROM sync_queue WHERE retry_count < 5 ORDER BY created_at LIMIT 50`. -/
def drainCandidates (q : List QueueEntry) : List QueueEntry :=
  ((q.filter fun e => e.retry_count < 5) |> sortByCreated).take 50

/-- One iteration of `processQueue`'s loop: `await syncRecord(...)` and then
`markSynced(...)` if it resolved, else increment `retry_count` and stamp
`last_attempt` on the entry (keyed by its `id`). -/
def drainStep (env : RtEnv) (now : Nat) (entry : QueueEntry)
    (acc : SyncState × Sys) : SyncState × Sys :=
  let st := acc.1
  let sys := acc.2
  match syncRecordRun env now entry.table_name entry.record_id sys.db sys.remote st with
  | .ok (remote', st') =>
      (st', markSynced entry.table_name entry.record_id { sys with remote := remote' })
  | .error _ =>
      (st, { sys with queue := sys.queue.map fun e =>
          if e.id = entry.id then
            { e with retry_count := e.retry_count + 1, last_attempt := some now }
          else e })

/-- `processQueue(company_id)`: snapshot the candidate set and process it in
order.  (The `company_id` argument of the source is unused by its body;
`syncRecord` reads the memoized `syncState.company_id` instead.) -/
def processQueue (env : RtEnv) (now : Nat) (st : SyncState) (sys : Sys) :
    SyncState × Sys :=
  (drainCandidates sys.queue).foldl (fun acc e => drainStep env now e acc) (st, sys)

/-- An externally triggered outbox operation: an enqueue-after-write or a
scheduled drain pass. -/
inductive SyncOp where
  | enq (table : String) (recordId : Nat) (now : Nat)
  | drain (env : RtEnv) (now : Nat)

def applyOp (op : SyncOp) (acc : SyncState × Sys) : SyncState × Sys :=
  match op with
  | .enq table recordId now => (acc.1, enqueueSync table recordId now acc.2)
  | .drain env now => processQueue env now acc.1 acc.2

def applyOps (ops : List SyncOp) (acc : SyncState × Sys) : SyncState × Sys :=
  ops.foldl (fun a op => applyOp op a) acc

/-- A sequence of drain passes only (each with its own environment and clock). -/
def applyDrains (ds : List (RtEnv × Nat)) (acc : SyncState × Sys) : SyncState × Sys :=
  ds.foldl (fun a d => processQueue d.1 d.2 a.1 a.2) acc

/-- Number of live outbox entries for one `(table_name, record_id)` pair. -/
def keyCountQ (q : List QueueEntry) (t : String) (r : Nat) : Nat :=
  (q.filter (entryKey t r)).length

/-- The outbox invariant: at most one live entry per `(table_name, record_id)`
pair. -/
def OutboxInv (q : List QueueEntry) : Prop :=
  ∀ t r, keyCountQ q t r ≤ 1

/-! ### The scheduled full sweep (`runSync`) -/

/-- The observable steps a sweep tick performs, in order. -/
inductive SweepEvent where
  | probeNetwork
  | reconnect
  | wait
  | resolveTenant
  | fanoutAll
  | drainQueue
  deriving Repr, DecidableEq

/-- The environment of one sweep tick: layer-1 network probe, the mongoose
`readyState` before and after the one-shot `connectCloudDB()` + 1s wait,
the settled results of the nine per-entity sync promises
(`Promise.allSettled`), an exception thrown by the drain's initial queue
query if any, and the wall clock; `rt` supplies the per-record environment
the drain's `syncRecord` calls run in. -/
structure SweepEnv where
  rt : RtEnv
  mongoReadyAfterReconnect : Bool
  fanout : Fin 9 → Except String Nat
  drainException : Option String
  now : Nat

/-- `results.forEach(r => { if (r.status === 'fulfilled') total += r.value })`:
the summed record count over the fulfilled entity groups only. -/
def settledTotal (f : Fin 9 → Except String Nat) : Nat :=
  (List.finRange 9).foldl
    (fun t i => match f i with | .ok n => t + n | .error _ => t) 0

/-- The error message set when layer 2 stays down after the reconnect. -/
def mongoUnreachableMsg : String := "Cannot reach MongoDB — check MONGO_URI"

/-- Tenant resolution inside the sweep:
`syncState.company_id || (syncState.company_id = getCompanyId())`. -/
def tenantOf (st : SyncState) (env : SweepEnv) : Except String String :=
  match st.company_id with
  | some c => .ok c
  | none => env.rt.companyIdResolve

/-- The first exception escaping the sweep's try block, if any: a throwing
`getCompanyId()`, or a throwing drain query (fan-out rejections are settled
by `Promise.allSettled` and never escape). -/
def bodyRaises (env : SweepEnv) (st : SyncState) : Option String :=
  match tenantOf st env with
  | .error m => some m
  | .ok _ => env.drainException

/-- `runSync()`, the scheduled sweep tick.  Returns the new `syncState`, the
new world, and the trace of steps reached.  The connection state the drain's
`syncRecord` calls observe is the (reconnected) live state. -/
def runSync (env : SweepEnv) (st : SyncState) (sys : Sys) :
    SyncState × Sys × List SweepEvent :=
  if env.rt.network = false then
    ({ st with status := "offline" }, sys, [.probeNetwork])
  else
    let evs : List SweepEvent :=
      if env.rt.mongoConnected then [.probeNetwork]
      else [.probeNetwork, .reconnect, .wait]
    if env.rt.mongoConnected = false ∧ env.mongoReadyAfterReconnect = false then
      ({ st with status := "error", lastSyncError := some mongoUnreachableMsg },
       sys, evs)
    else if st.status = "syncing" then
      (st, sys, evs)
    else
      let st1 := { st with status := "syncing" }
      match tenantOf st env with
      | .error msg =>
          ({ st1 with status := "error", lastSyncError := some msg },
           sys, evs ++ [.resolveTenant])
      | .ok cid =>
          let st2 := { st1 with company_id := some cid }
          let st3 := { st2 with
            status := "synced"
            lastSyncAt := some env.now
            recordsSynced := settledTotal env.fanout
            lastSyncError := none }
          match env.drainException with
          | some e =>
              ({ st3 with status := "error", lastSyncError := some e },
               sys, evs ++ [.resolveTenant, .fanoutAll, .drainQueue])
          | none =>
              let drainEnv := { env.rt with mongoConnected := true }
              let out := processQueue drainEnv env.now st3 sys
              (out.1, out.2, evs ++ [.resolveTenant, .fanoutAll, .drainQueue])

/-! ### Concrete fixtures used by witnesses and counterexamples -/

def dbEmpty : LocalDB :=
  { products := [], sales := [], sale_items := [], payments := [],
    customers := [], orders := [], expenses := [], purchases := [],
    purchase_items := [], suppliers := [] }

def sysEmpty : Sys :=
  { db := dbEmpty, remote := Remote.empty, queue := [], nextQueueId := 1 }

def stIdle : SyncState :=
  { status := "idle", lastSyncAt := none, lastSyncError := none,
    recordsSynced := 0, company_id := none }

def stSyncing : SyncState :=
  { stIdle with status := "syncing", company_id := some "T1" }

def rtOnline : RtEnv :=
  { network := true, mongoConnected := true,
    companyIdResolve := .ok "T1", pushError := fun _ _ => none }

def rtOffline : RtEnv :=
  { rtOnline with network := false, mongoConnected := false }

def rtMongoDown : RtEnv :=
  { rtOnline with mongoConnected := false }

def rtTenantThrow : RtEnv :=
  { rtOnline with companyIdResolve := .error "license store locked" }

def fanoutOk : Fin 9 -> Except String Nat := fun _ => .ok 3

def fanoutMixed : Fin 9 -> Except String Nat :=
  fun i => if i = 4 then .error "inventory query failed" else .ok 2

def envOffline : SweepEnv :=
  { rt := rtOffline, mongoReadyAfterReconnect := false, fanout := fanoutOk,
    drainException := none, now := 60 }

def envMongoDown : SweepEnv :=
  { rt := rtMongoDown, mongoReadyAfterReconnect := false, fanout := fanoutOk,
    drainException := none, now := 60 }

def envOnline : SweepEnv :=
  { rt := rtOnline, mongoReadyAfterReconnect := true, fanout := fanoutOk,
    drainException := none, now := 120 }

def envTenantThrow : SweepEnv :=
  { rt := rtTenantThrow, mongoReadyAfterReconnect := true, fanout := fanoutOk,
    drainException := none, now := 60 }

def envFanoutMixed : SweepEnv :=
  { rt := rtOnline, mongoReadyAfterReconnect := true, fanout := fanoutMixed,
    drainException := none, now := 60 }

def stSynced : SyncState :=
  { status := "synced", lastSyncAt := some 60, lastSyncError := none,
    recordsSynced := 0, company_id := some "T1" }

def productPending : ProductRow :=
  { id := 1, name := "Tea", category_id := none, price := 100, barcode := none,
    emoji := none, description := none, active := 1, created_at := none,
    sync_status := "pending", updated_at := none }

def saleRow42 : SaleRow :=
  { id := 42, customer_id := some 3, subtotal := 700, discount_percent := 0,
    discount_amount := 0, total := 700, status := "completed",
    cashier_id := some 2, created_at := some 100, sync_status := "pending",
    updated_at := none }

def saleItemA : SaleItemRow :=
  { sale_id := 42, product_id := some 1, product_name := "Tea", quantity := 2,
    unit_price := 100, subtotal := 200 }

def saleItemB : SaleItemRow :=
  { sale_id := 42, product_id := some 2, product_name := "Cake", quantity := 1,
    unit_price := 500, subtotal := 500 }

def paymentCash : PaymentRow :=
  { sale_id := 42, method := "cash", amount := 700, mpesa_receipt := none,
    status := "completed" }

def customerRowOne : CustomerRow :=
  { id := 3, name := "Amina", phone := none, email := none, birthday := none,
    loyalty_points := 10, store_credit := 0, created_at := none,
    sync_status := "pending", updated_at := none }

def orderRowOne : OrderRow :=
  { id := 4, customer_id := some 3, item_description := "Cake order",
    total_price := 1500, deposit_paid := 500, balance := 1000,
    pickup_date := some 200, status := "open", notes := none,
    created_by := some 2, created_at := none, sync_status := "pending",
    updated_at := none }

def expenseRowOne : ExpenseRow :=
  { id := 5, category := "transport", description := none, amount := 120,
    expense_date := some 90, created_by := some 2, created_at := none,
    sync_status := "pending", updated_at := none }

def purchaseRowOne : PurchaseRow :=
  { id := 1, supplier_id := none, total_amount := 500,
    payment_status := "paid", amount_paid := 500, created_by := none,
    created_at := none, sync_status := "pending", updated_at := none }

def purchaseRowTwo : PurchaseRow :=
  { purchaseRowOne with id := 2, total_amount := 300, sync_status := "synced" }

/-- A ledger holding one row of every queue-eligible kind (and two purchases,
so the purchases branch of the real-time path is observable). -/
def dbRich : LocalDB :=
  { products := [productPending], sales := [saleRow42],
    sale_items := [saleItemA, saleItemB], payments := [paymentCash],
    customers := [customerRowOne], orders := [orderRowOne],
    expenses := [expenseRowOne], purchases := [purchaseRowOne, purchaseRowTwo],
    purchase_items := [], suppliers := [] }

def dbOneProduct : LocalDB := { dbEmpty with products := [productPending] }

def qeProduct : QueueEntry :=
  { id := 1, table_name := "products", record_id := 1, operation := "upsert",
    retry_count := 0, created_at := 0, last_attempt := none }

def sysQueuedProduct : Sys :=
  { db := dbOneProduct, remote := Remote.empty, queue := [qeProduct],
    nextQueueId := 2 }

/-- An environment in which the remote write for `products/1` throws. -/
def rtPushFails : RtEnv :=
  { rtOnline with pushError := fun t i =>
      if t = "products" ∧ i = 1 then some "bulkWrite failed" else none }

def qePoisoned : QueueEntry :=
  { id := 1, table_name := "products", record_id := 7, operation := "upsert",
    retry_count := 5, created_at := 0, last_attempt := some 4 }

def qeFresh : QueueEntry :=
  { id := 2, table_name := "sales", record_id := 3, operation := "upsert",
    retry_count := 0, created_at := 1, last_attempt := none }

def sysPoisoned : Sys :=
  { db := dbEmpty, remote := Remote.empty, queue := [qePoisoned, qeFresh],
    nextQueueId := 3 }


/-! ## Theorems -/

theorem docKey_self {F : Type} (lid : Nat) (cid : String) (f : F) (now : Nat) :
    docKey lid cid (⟨lid, cid, f, now⟩ : RemoteDoc F) = true := by
  simp [docKey]

theorem keyCount_cons {F : Type} (d : RemoteDoc F) (ds : List (RemoteDoc F))
    (lid : Nat) (cid : String) :
    keyCount (d :: ds) lid cid =
      (if d.local_id = lid ∧ d.company_id = cid then 1 else 0) + keyCount ds lid cid := by
  by_cases hd : d.local_id = lid ∧ d.company_id = cid
  · simp [keyCount, List.filter_cons, docKey, hd]
    omega
  · simp [keyCount, List.filter_cons, docKey, hd]

theorem filter_updateOneUpsert {F : Type} (coll : List (RemoteDoc F)) (lid : Nat)
    (cid : String) (f : F) (now : Nat) (h : keyCount coll lid cid ≤ 1) :
    (updateOneUpsert coll lid cid f now).filter (docKey lid cid) =
      [⟨lid, cid, f, now⟩] := by
  induction coll with
  | nil => simp [updateOneUpsert, List.filter, docKey]
  | cons d ds ih =>
      rw [keyCount_cons] at h
      by_cases hd : d.local_id = lid ∧ d.company_id = cid
      · have hds : keyCount ds lid cid = 0 := by simp [hd] at h; omega
        have hnil : ds.filter (docKey lid cid) = [] :=
          List.length_eq_zero.mp hds
        simp [updateOneUpsert, hd, List.filter_cons, docKey_self, hnil]
      · have h' : keyCount ds lid cid ≤ 1 := by simp [hd] at h; omega
        have hkey : docKey lid cid d = false := by simp [docKey, hd]
        simp [updateOneUpsert, hd, List.filter_cons, hkey, ih h']

theorem length_updateOneUpsert_of_hit {F : Type} (coll : List (RemoteDoc F)) (lid : Nat)
    (cid : String) (f : F) (now : Nat) (h : 1 ≤ keyCount coll lid cid) :
    (updateOneUpsert coll lid cid f now).length = coll.length := by
  induction coll with
  | nil => simp [keyCount] at h
  | cons d ds ih =>
      rw [keyCount_cons] at h
      by_cases hd : d.local_id = lid ∧ d.company_id = cid
      · simp [updateOneUpsert, hd]
      · have h' : 1 ≤ keyCount ds lid cid := by simp [hd] at h; omega
        simp [updateOneUpsert, hd, ih h']

theorem others_updateOneUpsert {F : Type} (coll : List (RemoteDoc F)) (lid : Nat)
    (cid : String) (f : F) (now : Nat) :
    others (updateOneUpsert coll lid cid f now) lid cid = others coll lid cid := by
  induction coll with
  | nil => simp [updateOneUpsert, others, List.filter, docKey]
  | cons d ds ih =>
      by_cases hd : d.local_id = lid ∧ d.company_id = cid
      · have hkey : docKey lid cid d = true := by simp [docKey, hd]
        simp [updateOneUpsert, hd, others, List.filter_cons, docKey_self, hkey]
      · have hkey : docKey lid cid d = false := by simp [docKey, hd]
        have ih' := ih
        simp only [others] at ih' ⊢
        simp [updateOneUpsert, hd, List.filter_cons, hkey, ih']

theorem keyCount_updateOneUpsert {F : Type} (coll : List (RemoteDoc F)) (lid : Nat)
    (cid : String) (f : F) (now : Nat) (h : keyCount coll lid cid ≤ 1) :
    keyCount (updateOneUpsert coll lid cid f now) lid cid = 1 := by
  unfold keyCount
  rw [filter_updateOneUpsert coll lid cid f now h]
  rfl

/-- Claim C1: for every entity kind (the payload type `F` is arbitrary, so this
covers all nine sync collections), pushing the same local row twice through the
record upserter — two `upsertOne` calls with the same `(local_id, company_id)`
compound key, in a collection respecting the unique compound index (at most one
document per key) — leaves exactly one remote document addressed by that key,
that document's mapped fields (and `synced_at`) are those of the second push,
and the second push changes no document count: it only updates fields. -/
theorem upsert_twice_idempotent {F : Type} (coll : List (RemoteDoc F))
    (lid : Nat) (cid : String) (f1 f2 : F) (t1 t2 : Nat)
    (h : keyCount coll lid cid ≤ 1) :
    keyCount ((upsertOne ((upsertOne coll lid f1 cid t1).1) lid f2 cid t2).1) lid cid = 1 ∧
    ((upsertOne ((upsertOne coll lid f1 cid t1).1) lid f2 cid t2).1).filter (docKey lid cid) =
      [⟨lid, cid, f2, t2⟩] ∧
    ((upsertOne ((upsertOne coll lid f1 cid t1).1) lid f2 cid t2).1).length =
      ((upsertOne coll lid f1 cid t1).1).length := by
  have h1 : (upsertOne coll lid f1 cid t1).1 = updateOneUpsert coll lid cid f1 t1 := rfl
  have hc1 : keyCount (updateOneUpsert coll lid cid f1 t1) lid cid = 1 :=
    keyCount_updateOneUpsert coll lid cid f1 t1 h
  have hc1' : keyCount (updateOneUpsert coll lid cid f1 t1) lid cid ≤ 1 := by omega
  refine ⟨?_, ?_, ?_⟩
  · rw [h1]
    exact keyCount_updateOneUpsert _ lid cid f2 t2 hc1'
  · rw [h1]
    exact filter_updateOneUpsert _ lid cid f2 t2 hc1'
  · rw [h1]
    exact length_updateOneUpsert_of_hit _ lid cid f2 t2 (by omega)

/-- Witness for C1 at the spec's own example: a product with `local_id = 7`,
tenant `"T1"`, pushed twice with different price payloads into an initially
empty collection. -/
theorem upsert_twice_idempotent_witness :
    keyCount ([] : List (RemoteDoc Int)) 7 "T1" ≤ 1 ∧
    (keyCount ((upsertOne ((upsertOne ([] : List (RemoteDoc Int)) 7 100 "T1" 1).1) 7 150 "T1" 2).1) 7 "T1" = 1 ∧
     ((upsertOne ((upsertOne ([] : List (RemoteDoc Int)) 7 100 "T1" 1).1) 7 150 "T1" 2).1).filter (docKey 7 "T1") =
       [⟨7, "T1", 150, 2⟩] ∧
     ((upsertOne ((upsertOne ([] : List (RemoteDoc Int)) 7 100 "T1" 1).1) 7 150 "T1" 2).1).length =
       ((upsertOne ([] : List (RemoteDoc Int)) 7 100 "T1" 1).1).length) :=
  ⟨by decide, upsert_twice_idempotent [] 7 "T1" 100 150 1 2 (by decide)⟩

/-! ### Orchestrator lemmas -/

theorem syncRecordRun_state_of_memo (env : RtEnv) (now : Nat) (table : String)
    (id : Nat) (db : LocalDB) (remote : Remote) (st : SyncState) (c : String)
    (hc : st.company_id = some c) :
    ∃ remote', syncRecordRun env now table id db remote st = .ok (remote', st) := by
  unfold syncRecordRun
  by_cases h : env.network = false ∨ env.mongoConnected = false
  · exact ⟨remote, by simp [h]⟩
  · exact ⟨syncRecordBody env table id db remote c now, by simp [h, hc]⟩

theorem drainStep_fst_of_memo (env : RtEnv) (now : Nat) (e : QueueEntry)
    (st : SyncState) (sys : Sys) (c : String) (hc : st.company_id = some c) :
    ∃ sys', drainStep env now e (st, sys) = (st, sys') := by
  obtain ⟨remote', hr⟩ :=
    syncRecordRun_state_of_memo env now e.table_name e.record_id sys.db sys.remote st c hc
  exact ⟨markSynced e.table_name e.record_id { sys with remote := remote' },
    by simp [drainStep, hr]⟩

theorem foldl_drainStep_fst_of_memo (env : RtEnv) (now : Nat)
    (cs : List QueueEntry) (st : SyncState) (c : String) (hc : st.company_id = some c) :
    ∀ sys : Sys, (cs.foldl (fun acc e => drainStep env now e acc) (st, sys)).1 = st := by
  induction cs with
  | nil => intro sys; rfl
  | cons e es ih =>
      intro sys
      obtain ⟨sys', hs⟩ := drainStep_fst_of_memo env now e st sys c hc
      simp only [List.foldl_cons, hs]
      exact ih sys'

theorem processQueue_fst_of_memo (env : RtEnv) (now : Nat) (st : SyncState)
    (sys : Sys) (c : String) (hc : st.company_id = some c) :
    (processQueue env now st sys).1 = st :=
  foldl_drainStep_fst_of_memo env now (drainCandidates sys.queue) st c hc sys

theorem processQueue_fst_of_isSome (env : RtEnv) (now : Nat) (st : SyncState)
    (sys : Sys) (hc : st.company_id.isSome = true) :
    (processQueue env now st sys).1 = st := by
  obtain ⟨c, hc'⟩ := Option.isSome_iff_exists.mp hc
  exact processQueue_fst_of_memo env now st sys c hc' 

/-- Claim C3: connectivity layering of the sweep.  If the layer-1 network
probe fails, the tick sets `offline` and does nothing else (world untouched,
trace is only the probe).  If the network probe succeeds but the remote store
is disconnected, the tick attempts exactly one reconnect, waits, rechecks,
and — still disconnected — sets `error` with the descriptive reason, never
`offline`, again touching nothing. -/
theorem runSync_connectivity_layering (env : SweepEnv) (st : SyncState) (sys : Sys) :
    (env.rt.network = false →
      runSync env st sys =
        ({ st with status := "offline" }, sys, [SweepEvent.probeNetwork])) ∧
    (env.rt.network = true → env.rt.mongoConnected = false →
      env.mongoReadyAfterReconnect = false →
      (runSync env st sys).1.status = "error" ∧
      (runSync env st sys).1.lastSyncError = some mongoUnreachableMsg ∧
      ¬ (runSync env st sys).1.status = "offline" ∧
      (runSync env st sys).2.1 = sys ∧
      (runSync env st sys).2.2 =
        [SweepEvent.probeNetwork, SweepEvent.reconnect, SweepEvent.wait] ∧
      (runSync env st sys).2.2.count SweepEvent.reconnect = 1) := by
  constructor
  · intro hn
    simp [runSync, hn]
  · intro hn hmc hmr
    simp [runSync, hn, hmc, hmr, List.count_cons]

/-- Witness for C3 at concrete environments: a tick whose network probe
fails goes `offline` and stops; a tick with network up but the remote store
down before and after the one reconnect goes `error` with the descriptive
reason. -/
theorem runSync_connectivity_layering_witness :
    runSync envOffline stIdle sysEmpty =
      ({ stIdle with status := "offline" }, sysEmpty, [SweepEvent.probeNetwork]) ∧
    (runSync envMongoDown stIdle sysEmpty).1.status = "error" ∧
    (runSync envMongoDown stIdle sysEmpty).1.lastSyncError = some mongoUnreachableMsg :=
  ⟨(runSync_connectivity_layering envOffline stIdle sysEmpty).1 rfl,
   ((runSync_connectivity_layering envMongoDown stIdle sysEmpty).2 rfl rfl rfl).1,
   ((runSync_connectivity_layering envMongoDown stIdle sysEmpty).2 rfl rfl rfl).2.1⟩

/-- Claim C9: a tick that reaches the reentrancy guard (both connectivity
layers up) while the status is already `syncing` returns immediately:
sync state and world are unchanged, and the trace contains no tenant
resolution, no per-entity fan-out and no queue drain. -/
theorem runSync_reentrancy_guard (env : SweepEnv) (st : SyncState) (sys : Sys)
    (hn : env.rt.network = true)
    (hm : env.rt.mongoConnected = true ∨ env.mongoReadyAfterReconnect = true)
    (hs : st.status = "syncing") :
    (runSync env st sys).1 = st ∧
    (runSync env st sys).2.1 = sys ∧
    SweepEvent.resolveTenant ∉ (runSync env st sys).2.2 ∧
    SweepEvent.fanoutAll ∉ (runSync env st sys).2.2 ∧
    SweepEvent.drainQueue ∉ (runSync env st sys).2.2 := by
  by_cases hmc : env.rt.mongoConnected = true
  · simp [runSync, hn, hs, hmc]
  · have hmc' : env.rt.mongoConnected = false := by
      cases h : env.rt.mongoConnected
      · rfl
      · exact absurd h hmc
    have hmr : env.mongoReadyAfterReconnect = true := by
      rcases hm with h | h
      · exact absurd h hmc
      · exact h
    simp [runSync, hn, hs, hmc', hmr]

/-- Witness for C9: an overlapping trigger with both layers up and
`status == 'syncing'` leaves the state untouched and fans out nothing. -/
theorem runSync_reentrancy_guard_witness :
    (runSync envOnline stSyncing sysEmpty).1 = stSyncing ∧
    (runSync envOnline stSyncing sysEmpty).2.1 = sysEmpty ∧
    SweepEvent.fanoutAll ∉ (runSync envOnline stSyncing sysEmpty).2.2 ∧
    SweepEvent.drainQueue ∉ (runSync envOnline stSyncing sysEmpty).2.2 :=
  ⟨(runSync_reentrancy_guard envOnline stSyncing sysEmpty rfl (Or.inl rfl) rfl).1,
   (runSync_reentrancy_guard envOnline stSyncing sysEmpty rfl (Or.inl rfl) rfl).2.1,
   (runSync_reentrancy_guard envOnline stSyncing sysEmpty rfl (Or.inl rfl) rfl).2.2.2.1,
   (runSync_reentrancy_guard envOnline stSyncing sysEmpty rfl (Or.inl rfl) rfl).2.2.2.2⟩

/-- Claim C5: no exception propagates out of a sweep tick.  `runSync` is a
total function — every tick returns a state — and whenever an exception is
raised inside the sweep body and escapes to the tick's top level (a throwing
tenant resolution, or a throwing drain; per-entity fan-out rejections are
settled by `Promise.allSettled` and cannot escape), the tick converts it to
status `error` carrying the exception's message and returns normally, the
world untouched. -/
theorem runSync_catches_sweep_exceptions (env : SweepEnv) (st : SyncState)
    (sys : Sys) (msg : String)
    (hn : env.rt.network = true)
    (hm : env.rt.mongoConnected = true ∨ env.mongoReadyAfterReconnect = true)
    (hg : ¬ st.status = "syncing")
    (hth : bodyRaises env st = some msg) :
    (runSync env st sys).1.status = "error" ∧
    (runSync env st sys).1.lastSyncError = some msg ∧
    (runSync env st sys).2.1 = sys := by
  have hcond : ¬ (env.rt.mongoConnected = false ∧ env.mongoReadyAfterReconnect = false) := by
    rcases hm with h | h <;> simp [h]
  cases ht : tenantOf st env with
  | error m =>
      have hmsg : m = msg := by simpa [bodyRaises, ht] using hth
      subst hmsg
      simp [runSync, hn, hcond, hg, ht]
  | ok cid =>
      have hde : env.drainException = some msg := by simpa [bodyRaises, ht] using hth
      simp [runSync, hn, hcond, hg, ht, hde]

/-- Witness for C5: a tick whose tenant resolution throws ends in `error`
with that message, leaving the world untouched. -/
theorem runSync_catches_sweep_exceptions_witness :
    (runSync envTenantThrow stIdle sysEmpty).1.status = "error" ∧
    (runSync envTenantThrow stIdle sysEmpty).1.lastSyncError =
      some "license store locked" ∧
    (runSync envTenantThrow stIdle sysEmpty).2.1 = sysEmpty :=
  runSync_catches_sweep_exceptions envTenantThrow stIdle sysEmpty
    "license store locked" rfl (Or.inl rfl) (by decide) rfl

/-- Claim C6: one entity group's sync function rejecting does not abort the
others: with both layers up, the tick past its guard, tenant resolved and a
non-throwing drain, even when the `i`-th of the nine settled fan-out results
is a rejection, the sweep still ends with status `synced`, `recordsSynced`
equal to the sum over the fulfilled groups only, and `lastSyncError`
cleared. -/
theorem runSync_fanout_isolation (env : SweepEnv) (st : SyncState) (sys : Sys)
    (cid : String) (i : Fin 9) (m : String)
    (hn : env.rt.network = true)
    (hm : env.rt.mongoConnected = true ∨ env.mongoReadyAfterReconnect = true)
    (hg : ¬ st.status = "syncing")
    (ht : tenantOf st env = .ok cid)
    (hd : env.drainException = none)
    (hf : env.fanout i = .error m) :
    (runSync env st sys).1.status = "synced" ∧
    (runSync env st sys).1.recordsSynced = settledTotal env.fanout ∧
    (runSync env st sys).1.lastSyncError = none := by
  have hcond : ¬ (env.rt.mongoConnected = false ∧ env.mongoReadyAfterReconnect = false) := by
    rcases hm with h | h <;> simp [h]
  simp [runSync, hn, hcond, hg, ht, hd, processQueue_fst_of_isSome]

/-- Witness for C6: with the fifth group (inventory) rejecting and the other
eight fulfilling 2 records each, the sweep ends `synced` with 16 records and
no recorded error. -/
theorem runSync_fanout_isolation_witness :
    (runSync envFanoutMixed stIdle sysEmpty).1.status = "synced" ∧
    (runSync envFanoutMixed stIdle sysEmpty).1.recordsSynced = 16 ∧
    (runSync envFanoutMixed stIdle sysEmpty).1.lastSyncError = none :=
  ⟨(runSync_fanout_isolation envFanoutMixed stIdle sysEmpty "T1" 4
      "inventory query failed" rfl (Or.inl rfl) (by decide) rfl rfl rfl).1,
   ((runSync_fanout_isolation envFanoutMixed stIdle sysEmpty "T1" 4
      "inventory query failed" rfl (Or.inl rfl) (by decide) rfl rfl rfl).2.1).trans
     (by decide),
   (runSync_fanout_isolation envFanoutMixed stIdle sysEmpty "T1" 4
      "inventory query failed" rfl (Or.inl rfl) (by decide) rfl rfl rfl).2.2⟩

/-! ### Outbox invariant lemmas (replace-not-append, C4) -/

theorem keyCountQ_cons (a : QueueEntry) (q : List QueueEntry) (t : String) (r : Nat) :
    keyCountQ (a :: q) t r =
      (if entryKey t r a then 1 else 0) + keyCountQ q t r := by
  by_cases h : entryKey t r a
  · simp [keyCountQ, List.filter_cons, h]
    omega
  · simp [keyCountQ, List.filter_cons, h]

theorem keyCountQ_filter_le (q : List QueueEntry) (p : QueueEntry → Bool)
    (t : String) (r : Nat) :
    keyCountQ (q.filter p) t r ≤ keyCountQ q t r := by
  induction q with
  | nil => simp [keyCountQ]
  | cons a q ih =>
      by_cases hp : p a
      · rw [List.filter_cons_of_pos hp, keyCountQ_cons, keyCountQ_cons]
        omega
      · rw [List.filter_cons_of_neg (by simpa using hp), keyCountQ_cons]
        split <;> omega

theorem keyCountQ_map_retry (q : List QueueEntry) (eid now : Nat)
    (t : String) (r : Nat) :
    keyCountQ (q.map fun e =>
      if e.id = eid then
        { e with retry_count := e.retry_count + 1, last_attempt := some now }
      else e) t r = keyCountQ q t r := by
  induction q with
  | nil => rfl
  | cons a q ih =>
      rw [List.map_cons, keyCountQ_cons, keyCountQ_cons, ih]
      by_cases hid : a.id = eid <;> simp [hid, entryKey]

theorem filter_key_of_filter_not_key (q : List QueueEntry) (t : String) (r : Nat) :
    (q.filter fun e => !entryKey t r e).filter (entryKey t r) = [] := by
  induction q with
  | nil => rfl
  | cons a q ih =>
      by_cases h : entryKey t r a
      · simpa [List.filter_cons, h] using ih
      · simpa [List.filter_cons, h] using ih

theorem enqueueSync_filter_self (t : String) (r : Nat) (now : Nat) (sys : Sys) :
    (enqueueSync t r now sys).queue.filter (entryKey t r) =
      [⟨sys.nextQueueId, t, r, "upsert", 0, now, none⟩] := by
  simp only [enqueueSync, List.filter_append, filter_key_of_filter_not_key]
  simp [entryKey]

theorem keyCountQ_enqueueSync (t : String) (r : Nat) (now : Nat) (sys : Sys)
    (t' : String) (r' : Nat) :
    keyCountQ (enqueueSync t r now sys).queue t' r' ≤
      max (keyCountQ sys.queue t' r') 1 := by
  by_cases hk : t' = t ∧ r' = r
  · obtain ⟨h1, h2⟩ := hk
    subst h1; subst h2
    have := enqueueSync_filter_self t' r' now sys
    simp only [keyCountQ, this]
    simp
  · have hkey : entryKey t' r' (⟨sys.nextQueueId, t, r, "upsert", 0, now, none⟩ : QueueEntry) = false := by
      simp only [entryKey, decide_eq_false_iff_not]
      intro hcontra
      exact hk ⟨hcontra.1.symm ▸ rfl, hcontra.2.symm ▸ rfl⟩
    calc keyCountQ (enqueueSync t r now sys).queue t' r'
        = keyCountQ ((sys.queue.filter fun e => !entryKey t r e) ++
            [⟨sys.nextQueueId, t, r, "upsert", 0, now, none⟩]) t' r' := rfl
      _ = keyCountQ (sys.queue.filter fun e => !entryKey t r e) t' r' := by
            simp [keyCountQ, List.filter_append, hkey]
      _ ≤ keyCountQ sys.queue t' r' := keyCountQ_filter_le _ _ _ _
      _ ≤ max (keyCountQ sys.queue t' r') 1 := le_max_left _ _

theorem OutboxInv_enqueueSync (t : String) (r : Nat) (now : Nat) (sys : Sys)
    (h : OutboxInv sys.queue) : OutboxInv (enqueueSync t r now sys).queue := by
  intro t' r'
  have := keyCountQ_enqueueSync t r now sys t' r'
  have h' := h t' r'
  omega

theorem keyCountQ_drainStep_le (env : RtEnv) (now : Nat) (entry : QueueEntry)
    (acc : SyncState × Sys) (t : String) (r : Nat) :
    keyCountQ (drainStep env now entry acc).2.queue t r ≤
      keyCountQ acc.2.queue t r := by
  unfold drainStep
  cases hres : syncRecordRun env now entry.table_name entry.record_id
      acc.2.db acc.2.remote acc.1 with
  | ok p =>
      obtain ⟨remote', st'⟩ := p
      simp only [hres, markSynced]
      exact keyCountQ_filter_le _ _ _ _
  | error e =>
      simp only [hres]
      rw [keyCountQ_map_retry]

theorem keyCountQ_foldl_drainStep_le (env : RtEnv) (now : Nat)
    (cs : List QueueEntry) (t : String) (r : Nat) :
    ∀ acc : SyncState × Sys,
      keyCountQ ((cs.foldl (fun a e => drainStep env now e a) acc)).2.queue t r ≤
        keyCountQ acc.2.queue t r := by
  induction cs with
  | nil => intro acc; exact le_refl _
  | cons c cs ih =>
      intro acc
      calc keyCountQ ((cs.foldl (fun a e => drainStep env now e a)
              (drainStep env now c acc))).2.queue t r
          ≤ keyCountQ (drainStep env now c acc).2.queue t r := ih _
        _ ≤ keyCountQ acc.2.queue t r := keyCountQ_drainStep_le _ _ _ _ _ _

theorem OutboxInv_processQueue (env : RtEnv) (now : Nat) (st : SyncState)
    (sys : Sys) (h : OutboxInv sys.queue) :
    OutboxInv (processQueue env now st sys).2.queue := fun t r =>
  le_trans (keyCountQ_foldl_drainStep_le env now (drainCandidates sys.queue) t r (st, sys))
    (h t r)

theorem OutboxInv_applyOp (op : SyncOp) (acc : SyncState × Sys)
    (h : OutboxInv acc.2.queue) : OutboxInv (applyOp op acc).2.queue := by
  cases op with
  | enq t r now => exact OutboxInv_enqueueSync t r now acc.2 h
  | drain env now => exact OutboxInv_processQueue env now acc.1 acc.2 h

theorem OutboxInv_applyOps (ops : List SyncOp) :
    ∀ acc : SyncState × Sys, OutboxInv acc.2.queue →
      OutboxInv (applyOps ops acc).2.queue := by
  induction ops with
  | nil => intro acc h; exact h
  | cons op ops ih =>
      intro acc h
      exact ih (applyOp op acc) (OutboxInv_applyOp op acc h)

/-- Claim C4: after any sequence of enqueue and drain operations the outbox
holds at most one live entry per `(table_name, record_id)` pair, and an
enqueue of a (possibly already-queued) pair leaves exactly one row for that
pair — the freshly inserted one, carrying the enqueue's own `created_at`. -/
theorem outbox_unique_key_invariant (ops : List SyncOp) (st : SyncState)
    (sys : Sys) (h : OutboxInv sys.queue) :
    OutboxInv (applyOps ops (st, sys)).2.queue ∧
    ∀ t r now, (enqueueSync t r now sys).queue.filter (entryKey t r) =
      [⟨sys.nextQueueId, t, r, "upsert", 0, now, none⟩] :=
  ⟨OutboxInv_applyOps ops (st, sys) h,
   fun t r now => enqueueSync_filter_self t r now sys⟩

/-- Witness for C4: enqueueing `orders/1` twice (at times 5 and 9) leaves
exactly one outbox row for the pair, the second one. -/
theorem outbox_unique_key_invariant_witness :
    (enqueueSync "orders" 1 9 (enqueueSync "orders" 1 5 sysEmpty)).queue.filter
        (entryKey "orders" 1) =
      [⟨2, "orders", 1, "upsert", 0, 9, none⟩] :=
  (outbox_unique_key_invariant [] stIdle (enqueueSync "orders" 1 5 sysEmpty)
      (fun t r => le_trans (List.length_filter_le _ _) (by decide))).2 "orders" 1 9

/-! ### Drain candidate selection and poisoned entries (C7) -/

theorem mem_insertByCreated {x e : QueueEntry} {l : List QueueEntry} :
    x ∈ insertByCreated e l ↔ x = e ∨ x ∈ l := by
  induction l with
  | nil => simp [insertByCreated]
  | cons a l ih =>
      by_cases h : e.created_at < a.created_at
      · simp [insertByCreated, h]
      · simp [insertByCreated, h, ih]
        tauto

theorem mem_sortByCreated {x : QueueEntry} (l : List QueueEntry) :
    x ∈ sortByCreated l ↔ x ∈ l := by
  induction l with
  | nil => simp [sortByCreated]
  | cons a l ih => simp [sortByCreated, mem_insertByCreated, ih]

theorem pairwise_insertByCreated (e : QueueEntry) (l : List QueueEntry)
    (h : l.Pairwise fun a b => a.created_at ≤ b.created_at) :
    (insertByCreated e l).Pairwise fun a b => a.created_at ≤ b.created_at := by
  induction l with
  | nil => simp [insertByCreated]
  | cons a l ih =>
      rcases List.pairwise_cons.mp h with ⟨ha, hl⟩
      by_cases hlt : e.created_at < a.created_at
      · rw [insertByCreated, if_pos hlt]
        refine List.pairwise_cons.mpr ⟨?_, h⟩
        intro b hb
        rcases List.mem_cons.mp hb with rfl | hb
        · omega
        · have := ha b hb
          omega
      · rw [insertByCreated, if_neg hlt]
        refine List.pairwise_cons.mpr ⟨?_, ih hl⟩
        intro b hb
        rcases mem_insertByCreated.mp hb with rfl | hb
        · omega
        · exact ha b hb

theorem pairwise_sortByCreated (l : List QueueEntry) :
    (sortByCreated l).Pairwise fun a b => a.created_at ≤ b.created_at := by
  induction l with
  | nil => simp [sortByCreated]
  | cons a l ih => exact pairwise_insertByCreated a (sortByCreated l) ih

theorem drainCandidates_length_le (q : List QueueEntry) :
    (drainCandidates q).length ≤ 50 := by
  simp only [drainCandidates, List.length_take]
  omega

theorem mem_drainCandidates {x : QueueEntry} {q : List QueueEntry}
    (h : x ∈ drainCandidates q) : x ∈ q ∧ x.retry_count < 5 := by
  have h1 : x ∈ sortByCreated (q.filter fun e => e.retry_count < 5) :=
    List.mem_of_mem_take h
  have h2 : x ∈ q.filter fun e => e.retry_count < 5 :=
    (mem_sortByCreated _).mp h1
  have h3 := List.mem_filter.mp h2
  exact ⟨h3.1, by simpa using h3.2⟩

theorem drainCandidates_sorted (q : List QueueEntry) :
    (drainCandidates q).Pairwise fun a b => a.created_at ≤ b.created_at :=
  (pairwise_sortByCreated _).sublist (List.take_sublist _ _)

theorem two_le_length_of_mem {α : Type} {l : List α} {e c : α}
    (he : e ∈ l) (hc : c ∈ l) (hne : ¬ e = c) : 2 ≤ l.length := by
  induction l with
  | nil => cases he
  | cons a l ih =>
      rcases List.mem_cons.mp he with rfl | he'
      · rcases List.mem_cons.mp hc with rfl | hc'
        · exact absurd rfl hne
        · have : 1 ≤ l.length := List.length_pos.mpr (List.ne_nil_of_mem hc')
          simp only [List.length_cons]
          omega
      · rcases List.mem_cons.mp hc with rfl | hc'
        · have : 1 ≤ l.length := List.length_pos.mpr (List.ne_nil_of_mem he')
          simp only [List.length_cons]
          omega
        · have := ih he' hc'
          simp only [List.length_cons]
          omega

theorem entryKey_self (c : QueueEntry) :
    entryKey c.table_name c.record_id c = true := by
  simp [entryKey]

/-- Two distinct live entries can never share a key under the invariant. -/
theorem no_key_conflict {q : List QueueEntry} (hinv : OutboxInv q)
    {e c : QueueEntry} (he : e ∈ q) (hc : c ∈ q) (hne : ¬ e = c) :
    entryKey c.table_name c.record_id e = false := by
  by_contra hcontra
  have hkey : entryKey c.table_name c.record_id e = true := by
    cases h : entryKey c.table_name c.record_id e
    · exact absurd h hcontra
    · rfl
  have hme : e ∈ q.filter (entryKey c.table_name c.record_id) :=
    List.mem_filter.mpr ⟨he, hkey⟩
  have hmc : c ∈ q.filter (entryKey c.table_name c.record_id) :=
    List.mem_filter.mpr ⟨hc, entryKey_self c⟩
  have h2 := two_le_length_of_mem hme hmc hne
  have := hinv c.table_name c.record_id
  simp only [keyCountQ] at this
  omega

/-- During one drain pass every step preserves a poisoned entry: the
`markSynced` delete cannot hit it (candidates have a different key by the
invariant) and the retry bump cannot hit it (ids are unique). -/
theorem foldl_drainStep_preserves_poisoned (env : RtEnv) (now : Nat)
    (q0 : List QueueEntry) (hinv : OutboxInv q0)
    (hids : (q0.map fun x => x.id).Nodup)
    (e : QueueEntry) (he0 : e ∈ q0) (hrc : 5 ≤ e.retry_count)
    (cs : List QueueEntry) (hcs : ∀ c ∈ cs, c ∈ q0 ∧ c.retry_count < 5) :
    ∀ acc : SyncState × Sys, e ∈ acc.2.queue →
      e ∈ (cs.foldl (fun a c => drainStep env now c a) acc).2.queue := by
  induction cs with
  | nil => intro acc h; exact h
  | cons c cs ih =>
      intro acc hacc
      have hc := hcs c (List.mem_cons_self c cs)
      have hnec : ¬ e = c := by
        intro hcontra
        rw [hcontra] at hrc
        omega
      have hstep : e ∈ (drainStep env now c acc).2.queue := by
        unfold drainStep
        cases hres : syncRecordRun env now c.table_name c.record_id
            acc.2.db acc.2.remote acc.1 with
        | ok p =>
            obtain ⟨remote', st'⟩ := p
            simp only [hres, markSynced]
            refine List.mem_filter.mpr ⟨hacc, ?_⟩
            rw [no_key_conflict hinv he0 hc.1 hnec]
            rfl
        | error err =>
            simp only [hres]
            have hid : ¬ e.id = c.id := by
              intro hcontra
              exact hnec (List.inj_on_of_nodup_map hids he0 hc.1 hcontra)
            refine List.mem_map.mpr ⟨e, hacc, ?_⟩
            exact if_neg hid
      exact ih (fun x hx => hcs x (List.mem_cons_of_mem c hx))
        (drainStep env now c acc) hstep

theorem processQueue_preserves_poisoned (env : RtEnv) (now : Nat)
    (st : SyncState) (sys : Sys) (hinv : OutboxInv sys.queue)
    (hids : (sys.queue.map fun x => x.id).Nodup)
    (e : QueueEntry) (he : e ∈ sys.queue) (hrc : 5 ≤ e.retry_count) :
    e ∈ (processQueue env now st sys).2.queue :=
  foldl_drainStep_preserves_poisoned env now sys.queue hinv hids e he hrc
    (drainCandidates sys.queue) (fun c hc => mem_drainCandidates hc)
    (st, sys) he

theorem ids_nodup_drainStep (env : RtEnv) (now : Nat) (entry : QueueEntry)
    (acc : SyncState × Sys) (h : (acc.2.queue.map fun x => x.id).Nodup) :
    ((drainStep env now entry acc).2.queue.map fun x => x.id).Nodup := by
  unfold drainStep
  cases hres : syncRecordRun env now entry.table_name entry.record_id
      acc.2.db acc.2.remote acc.1 with
  | ok p =>
      obtain ⟨remote', st'⟩ := p
      simp only [hres, markSynced]
      exact h.sublist ((List.filter_sublist _).map _)
  | error err =>
      simp only [hres]
      have hmap : ((acc.2.queue.map fun e =>
          if e.id = entry.id then
            { e with retry_count := e.retry_count + 1, last_attempt := some now }
          else e).map fun x => x.id) = acc.2.queue.map fun x => x.id := by
        rw [List.map_map]
        refine List.map_congr_left ?_
        intro x _
        by_cases hid : x.id = entry.id <;> simp [hid]
      rw [hmap]
      exact h

theorem ids_nodup_foldl_drainStep (env : RtEnv) (now : Nat)
    (cs : List QueueEntry) :
    ∀ acc : SyncState × Sys, (acc.2.queue.map fun x => x.id).Nodup →
      (((cs.foldl (fun a c => drainStep env now c a) acc)).2.queue.map
        fun x => x.id).Nodup := by
  induction cs with
  | nil => intro acc h; exact h
  | cons c cs ih =>
      intro acc h
      exact ih (drainStep env now c acc) (ids_nodup_drainStep env now c acc h)

theorem ids_nodup_processQueue (env : RtEnv) (now : Nat) (st : SyncState)
    (sys : Sys) (h : (sys.queue.map fun x => x.id).Nodup) :
    ((processQueue env now st sys).2.queue.map fun x => x.id).Nodup :=
  ids_nodup_foldl_drainStep env now (drainCandidates sys.queue) (st, sys) h

theorem applyDrains_preserves_poisoned (ds : List (RtEnv × Nat)) :
    ∀ (st : SyncState) (sys : Sys), OutboxInv sys.queue →
      (sys.queue.map fun x => x.id).Nodup →
      ∀ e ∈ sys.queue, 5 ≤ e.retry_count →
        e ∈ (applyDrains ds (st, sys)).2.queue ∧
        OutboxInv (applyDrains ds (st, sys)).2.queue ∧
        ((applyDrains ds (st, sys)).2.queue.map fun x => x.id).Nodup := by
  induction ds with
  | nil => intro st sys h1 h2 e he hrc; exact ⟨he, h1, h2⟩
  | cons d ds ih =>
      intro st sys h1 h2 e he hrc
      have hstep := processQueue_preserves_poisoned d.1 d.2 st sys h1 h2 e he hrc
      have h1' := OutboxInv_processQueue d.1 d.2 st sys h1
      have h2' := ids_nodup_processQueue d.1 d.2 st sys h2
      have happ : applyDrains (d :: ds) (st, sys) =
          applyDrains ds (processQueue d.1 d.2 st sys) := rfl
      rw [happ]
      exact ih (processQueue d.1 d.2 st sys).1 (processQueue d.1 d.2 st sys).2
        h1' h2' e hstep hrc

/-- A decidable sufficient condition for the outbox invariant: pairwise
distinct `(table_name, record_id)` keys. -/
theorem OutboxInv_of_pairwise_keys (q : List QueueEntry)
    (h : q.Pairwise fun a b =>
      ¬ (a.table_name = b.table_name ∧ a.record_id = b.record_id)) :
    OutboxInv q := by
  induction h with
  | nil => intro t r; simp [keyCountQ]
  | @cons a l ha hl ih =>
      intro t r
      rw [keyCountQ_cons]
      by_cases hk : entryKey t r a = true
      · have hka : a.table_name = t ∧ a.record_id = r := by
          simpa [entryKey] using hk
        have hz : keyCountQ l t r = 0 := by
          rw [keyCountQ, List.length_eq_zero, List.filter_eq_nil_iff]
          intro c hc
          have hdiff := ha c hc
          simp only [entryKey, decide_eq_true_eq]
          intro hkc
          exact hdiff ⟨hka.1.trans hkc.1.symm, hka.2.trans hkc.2.symm⟩
        simp [hk, hz]
      · have := ih t r
        simp [hk]
        omega

/-- Claim C7: a drain pass selects at most 50 candidates, all with
`retry_count < 5`, ordered oldest-created-first; a poisoned entry
(`retry_count >= 5`) is never a candidate of this or of any later drain,
while remaining present in the outbox table throughout. -/
theorem drain_candidate_selection (st : SyncState) (sys : Sys) (e : QueueEntry)
    (hinv : OutboxInv sys.queue) (hids : (sys.queue.map fun x => x.id).Nodup)
    (he : e ∈ sys.queue) (hrc : 5 ≤ e.retry_count) :
    (drainCandidates sys.queue).length ≤ 50 ∧
    (∀ x ∈ drainCandidates sys.queue, x.retry_count < 5) ∧
    (drainCandidates sys.queue).Pairwise (fun a b => a.created_at ≤ b.created_at) ∧
    e ∉ drainCandidates sys.queue ∧
    ∀ ds : List (RtEnv × Nat),
      e ∈ (applyDrains ds (st, sys)).2.queue ∧
      e ∉ drainCandidates (applyDrains ds (st, sys)).2.queue := by
  refine ⟨drainCandidates_length_le _, fun x hx => (mem_drainCandidates hx).2,
    drainCandidates_sorted _, ?_, ?_⟩
  · intro hmem
    have := (mem_drainCandidates hmem).2
    omega
  · intro ds
    obtain ⟨hmem, _, _⟩ :=
      applyDrains_preserves_poisoned ds st sys hinv hids e he hrc
    refine ⟨hmem, ?_⟩
    intro hcontra
    have := (mem_drainCandidates hcontra).2
    omega

/-- Witness for C7: a concrete outbox holding a poisoned entry and a fresh
entry; the poisoned one is not drained now, survives a drain pass, and is
still not a candidate afterwards. -/
theorem drain_candidate_selection_witness :
    qePoisoned ∉ drainCandidates sysPoisoned.queue ∧
    qePoisoned ∈ (applyDrains [(rtOnline, 99)] (stSynced, sysPoisoned)).2.queue ∧
    qePoisoned ∉ drainCandidates (applyDrains [(rtOnline, 99)] (stSynced, sysPoisoned)).2.queue :=
  ⟨(drain_candidate_selection stSynced sysPoisoned qePoisoned
      (OutboxInv_of_pairwise_keys _ (by decide))
      (by decide) (by decide) (by decide)).2.2.2.1,
   ((drain_candidate_selection stSynced sysPoisoned qePoisoned
      (OutboxInv_of_pairwise_keys _ (by decide))
      (by decide) (by decide) (by decide)).2.2.2.2 [(rtOnline, 99)]).1,
   ((drain_candidate_selection stSynced sysPoisoned qePoisoned
      (OutboxInv_of_pairwise_keys _ (by decide))
      (by decide) (by decide) (by decide)).2.2.2.2 [(rtOnline, 99)]).2⟩

/-! ### The drain's handling of a failed push (C2) -/

/-- Claim C2 (code bug, evaluated at the failing input): an outbox entry for
`products/1` whose remote write throws during the drain.  Because
`syncRecord` catches and swallows every error of its dispatch body,
`processQueue` treats the failed push as a success: the entry is deleted,
the source row is flipped to `synced`, no document reaches the remote store,
and no `retry_count` is ever incremented — where the spec requires
`retry_count + 1`, `last_attempt = now` and the entry kept for the next
drain. -/
theorem processQueue_swallows_push_failure :
    (processQueue rtPushFails 61 stSynced sysQueuedProduct).2.queue = [] ∧
    ((processQueue rtPushFails 61 stSynced sysQueuedProduct).2.db.products.map
      fun r => r.sync_status) = ["synced"] ∧
    (processQueue rtPushFails 61 stSynced sysQueuedProduct).2.remote.products = [] ∧
    ∀ x ∈ (processQueue rtPushFails 61 stSynced sysQueuedProduct).2.queue,
      x.retry_count = 0 := by
  decide

/-! ### The real-time single-record path (C8, C10) -/

/-- Claim C8 counterexample: the real-time path for `purchases` is not a
single-document push.  With two purchase rows in the ledger and an empty
remote store, `syncRecord('purchases', 1)` writes BOTH purchase documents
(`local_id` 1 and 2), not just the written record's. -/
theorem syncRecord_purchases_bulk_counterexample :
    (syncRecordRun rtOnline 9 "purchases" 1 dbRich Remote.empty stSynced).toOption.map
        (fun p => p.1.purchases.map fun d => d.local_id) = some [1, 2] ∧
    ¬ (syncRecordRun rtOnline 9 "purchases" 1 dbRich Remote.empty stSynced).toOption.map
        (fun p => p.1.purchases.map fun d => d.local_id) = some [1] := by
  decide

/-- Claim C8 as amended: for five of the six queue-eligible kinds (sales,
products, customers, orders, expenses) the real-time path, after the two
connectivity probes, pushes a single-document upsert of just the written row
(embedding the sale's child items and payments), touching no other remote
document; for `purchases` it instead re-pushes ALL purchase rows in bulk.
When either connectivity layer is down it is a no-op, and a thrown remote
write is swallowed, never surfacing to the caller. -/
theorem syncRecord_realtime_amended (env : RtEnv) (now id : Nat) (db : LocalDB)
    (remote : Remote) (st : SyncState) (cid : String)
    (hn : env.network = true) (hm : env.mongoConnected = true)
    (hc : st.company_id = some cid) (hp : env.pushError = fun _ _ => none) :
    (∀ r, db.products.find? (fun x => x.id = id) = some r →
      ∃ out, syncRecordRun env now "products" id db remote st = .ok (out, st) ∧
        out.sales = remote.sales ∧ out.customers = remote.customers ∧
        out.orders = remote.orders ∧ out.expenses = remote.expenses ∧
        out.purchases = remote.purchases ∧
        others out.products r.id cid = others remote.products r.id cid ∧
        (keyCount remote.products r.id cid ≤ 1 →
          out.products.filter (docKey r.id cid) = [⟨r.id, cid, productDoc r, now⟩])) ∧
    (∀ s, db.sales.find? (fun x => x.id = id) = some s →
      ∃ out, syncRecordRun env now "sales" id db remote st = .ok (out, st) ∧
        out.products = remote.products ∧ out.customers = remote.customers ∧
        out.orders = remote.orders ∧ out.expenses = remote.expenses ∧
        out.purchases = remote.purchases ∧
        others out.sales s.id cid = others remote.sales s.id cid ∧
        (keyCount remote.sales s.id cid ≤ 1 →
          out.sales.filter (docKey s.id cid) =
            [⟨s.id, cid, buildSaleDoc s (db.sale_items.filter fun i => i.sale_id = id)
              (db.payments.filter fun p => p.sale_id = id), now⟩])) ∧
    (∀ r, db.customers.find? (fun x => x.id = id) = some r →
      ∃ out, syncRecordRun env now "customers" id db remote st = .ok (out, st) ∧
        out.sales = remote.sales ∧ out.products = remote.products ∧
        out.orders = remote.orders ∧ out.expenses = remote.expenses ∧
        out.purchases = remote.purchases ∧
        others out.customers r.id cid = others remote.customers r.id cid ∧
        (keyCount remote.customers r.id cid ≤ 1 →
          out.customers.filter (docKey r.id cid) = [⟨r.id, cid, customerDoc r, now⟩])) ∧
    (∀ r, db.orders.find? (fun x => x.id = id) = some r →
      ∃ out, syncRecordRun env now "orders" id db remote st = .ok (out, st) ∧
        out.sales = remote.sales ∧ out.products = remote.products ∧
        out.customers = remote.customers ∧ out.expenses = remote.expenses ∧
        out.purchases = remote.purchases ∧
        others out.orders r.id cid = others remote.orders r.id cid ∧
        (keyCount remote.orders r.id cid ≤ 1 →
          out.orders.filter (docKey r.id cid) = [⟨r.id, cid, orderDoc r, now⟩])) ∧
    (∀ r, db.expenses.find? (fun x => x.id = id) = some r →
      ∃ out, syncRecordRun env now "expenses" id db remote st = .ok (out, st) ∧
        out.sales = remote.sales ∧ out.products = remote.products ∧
        out.customers = remote.customers ∧ out.orders = remote.orders ∧
        out.purchases = remote.purchases ∧
        others out.expenses r.id cid = others remote.expenses r.id cid ∧
        (keyCount remote.expenses r.id cid ≤ 1 →
          out.expenses.filter (docKey r.id cid) = [⟨r.id, cid, expenseDoc r, now⟩])) ∧
    (∃ out, syncRecordRun env now "purchases" id db remote st = .ok (out, st) ∧
      out.sales = remote.sales ∧ out.products = remote.products ∧
      out.customers = remote.customers ∧ out.orders = remote.orders ∧
      out.expenses = remote.expenses ∧
      out.purchases = (upsertMany remote.purchases (purchaseDocs db) cid now).1) ∧
    (∀ (env2 : RtEnv) (t : String),
      env2.network = false ∨ env2.mongoConnected = false →
      syncRecordRun env2 now t id db remote st = .ok (remote, st)) ∧
    (∀ (env3 : RtEnv) (t msg : String), env3.network = true →
      env3.mongoConnected = true → env3.pushError t id = some msg →
      syncRecordRun env3 now t id db remote st = .ok (remote, st)) := by
  refine ⟨?_, ?_, ?_, ?_, ?_, ?_, ?_, ?_⟩
  · intro r hr
    refine ⟨{ remote with
        products := (upsertOne remote.products r.id (productDoc r) cid now).1 },
      ?_, rfl, rfl, rfl, rfl, rfl, ?_, ?_⟩
    · simp [syncRecordRun, hn, hm, hc, syncRecordBody, hp, hr]
    · exact others_updateOneUpsert remote.products r.id cid (productDoc r) now
    · intro huniq
      exact filter_updateOneUpsert remote.products r.id cid (productDoc r) now huniq
  · intro s hs
    refine ⟨{ remote with
        sales := (upsertOne remote.sales s.id
          (buildSaleDoc s (db.sale_items.filter fun i => i.sale_id = id)
            (db.payments.filter fun p => p.sale_id = id)) cid now).1 },
      ?_, rfl, rfl, rfl, rfl, rfl, ?_, ?_⟩
    · simp [syncRecordRun, hn, hm, hc, syncRecordBody, hp, hs]
    · exact others_updateOneUpsert remote.sales s.id cid _ now
    · intro huniq
      exact filter_updateOneUpsert remote.sales s.id cid _ now huniq
  · intro r hr
    refine ⟨{ remote with
        customers := (upsertOne remote.customers r.id (customerDoc r) cid now).1 },
      ?_, rfl, rfl, rfl, rfl, rfl, ?_, ?_⟩
    · simp [syncRecordRun, hn, hm, hc, syncRecordBody, hp, hr]
    · exact others_updateOneUpsert remote.customers r.id cid (customerDoc r) now
    · intro huniq
      exact filter_updateOneUpsert remote.customers r.id cid (customerDoc r) now huniq
  · intro r hr
    refine ⟨{ remote with
        orders := (upsertOne remote.orders r.id (orderDoc r) cid now).1 },
      ?_, rfl, rfl, rfl, rfl, rfl, ?_, ?_⟩
    · simp [syncRecordRun, hn, hm, hc, syncRecordBody, hp, hr]
    · exact others_updateOneUpsert remote.orders r.id cid (orderDoc r) now
    · intro huniq
      exact filter_updateOneUpsert remote.orders r.id cid (orderDoc r) now huniq
  · intro r hr
    refine ⟨{ remote with
        expenses := (upsertOne remote.expenses r.id (expenseDoc r) cid now).1 },
      ?_, rfl, rfl, rfl, rfl, rfl, ?_, ?_⟩
    · simp [syncRecordRun, hn, hm, hc, syncRecordBody, hp, hr]
    · exact others_updateOneUpsert remote.expenses r.id cid (expenseDoc r) now
    · intro huniq
      exact filter_updateOneUpsert remote.expenses r.id cid (expenseDoc r) now huniq
  · refine ⟨{ remote with
        purchases := (upsertMany remote.purchases (purchaseDocs db) cid now).1 },
      ?_, rfl, rfl, rfl, rfl, rfl, rfl⟩
    simp [syncRecordRun, hn, hm, hc, syncRecordBody, hp]
  · intro env2 t h2
    simp [syncRecordRun, h2]
  · intro env3 t msg h3n h3m h3p
    simp [syncRecordRun, h3n, h3m, hc, syncRecordBody, h3p]

/-- Witness for the amended C8 at the products kind: pushing the written
product row writes exactly its one document into an empty collection. -/
theorem syncRecord_realtime_amended_witness :
    ∃ out, syncRecordRun rtOnline 9 "products" 1 dbRich Remote.empty stSynced =
        .ok (out, stSynced) ∧
      out.sales = Remote.empty.sales ∧ out.customers = Remote.empty.customers ∧
      out.orders = Remote.empty.orders ∧ out.expenses = Remote.empty.expenses ∧
      out.purchases = Remote.empty.purchases ∧
      others out.products productPending.id "T1" =
        others Remote.empty.products productPending.id "T1" ∧
      (keyCount Remote.empty.products productPending.id "T1" ≤ 1 →
        out.products.filter (docKey productPending.id "T1") =
          [⟨productPending.id, "T1", productDoc productPending, 9⟩]) :=
  (syncRecord_realtime_amended rtOnline 9 1 dbRich Remote.empty stSynced "T1"
      rfl rfl rfl rfl).1 productPending rfl

/-- Claim C10 counterexample: the real-time path with an unhandled table name
is not free of local state changes — before reaching the silent `default`
branch it resolves and memoizes the tenant id, flipping
`syncState.company_id` from `none` to the resolved value. -/
theorem syncRecord_unknown_table_memoizes :
    (syncRecordRun rtOnline 3 "transfers" 7 dbEmpty Remote.empty stIdle).toOption.map
        (fun p => p.2.company_id) = some (some "T1") ∧
    stIdle.company_id = none := by
  decide

/-- Claim C10 as amended: a real-time push with a table name outside the six
handled kinds performs no remote write and touches no ledger row or outbox
entry; but it still runs the connectivity probes and, when reached, the
tenant-id memoization — so the only possible effects are the memoized
`company_id` (and a thrown tenant resolution propagating). -/
theorem syncRecord_unknown_table_noop (env : RtEnv) (now : Nat) (table : String)
    (id : Nat) (db : LocalDB) (remote : Remote) (st : SyncState)
    (h : ¬ table ∈ TRACKABLE_TABLES) :
    syncRecordRun env now table id db remote st = .ok (remote, st) ∨
    (∃ c, st.company_id = none ∧ env.companyIdResolve = .ok c ∧
      syncRecordRun env now table id db remote st =
        .ok (remote, { st with company_id := some c })) ∨
    (∃ msg, st.company_id = none ∧ env.companyIdResolve = .error msg ∧
      syncRecordRun env now table id db remote st = .error msg) := by
  have hne : ∀ s : String, s ∈ TRACKABLE_TABLES → ¬ table = s := by
    intro s hs hh
    exact h (hh ▸ hs)
  have hbody : ∀ cid, syncRecordBody env table id db remote cid now = remote := by
    intro cid
    unfold syncRecordBody
    cases hpe : env.pushError table id with
    | some e => rfl
    | none =>
        simp [hne "products" (by decide), hne "sales" (by decide),
          hne "customers" (by decide), hne "orders" (by decide),
          hne "expenses" (by decide), hne "purchases" (by decide)]
  by_cases hcon : env.network = false ∨ env.mongoConnected = false
  · left
    simp [syncRecordRun, hcon]
  · cases hcid : st.company_id with
    | some c =>
        left
        simp [syncRecordRun, hcon, hcid, hbody]
    | none =>
        cases hres : env.companyIdResolve with
        | ok c =>
            right; left
            exact ⟨c, rfl, rfl, by simp [syncRecordRun, hcon, hcid, hres, hbody]⟩
        | error msg =>
            right; right
            exact ⟨msg, rfl, rfl, by simp [syncRecordRun, hcon, hcid, hres]⟩

/-- Witness for the amended C10 at a concrete unknown table (`transfers`). -/
theorem syncRecord_unknown_table_noop_witness :
    syncRecordRun rtOnline 3 "transfers" 7 dbEmpty Remote.empty stIdle =
      .ok (Remote.empty, stIdle) ∨
    (∃ c, stIdle.company_id = none ∧ rtOnline.companyIdResolve = .ok c ∧
      syncRecordRun rtOnline 3 "transfers" 7 dbEmpty Remote.empty stIdle =
        .ok (Remote.empty, { stIdle with company_id := some c })) ∨
    (∃ msg, stIdle.company_id = none ∧ rtOnline.companyIdResolve = .error msg ∧
      syncRecordRun rtOnline 3 "transfers" 7 dbEmpty Remote.empty stIdle =
        .error msg) :=
  syncRecord_unknown_table_noop rtOnline 3 "transfers" 7 dbEmpty Remote.empty
    stIdle (by decide)

end QuickBiza
